import Mathlib

/-!
Verification of the AnCLI review engine against its specification.

The Go source is shallowly embedded: pure functions become Lean functions,
stateful code becomes explicit state passing, `time.Time` values become
integer nanosecond timestamps (`Time`), Go `float64` FSRS quantities become
integers (no claim performs real arithmetic on them), fallible operations
return `Except`/`Option`, and calls into external collaborators (the go-fsrs
scheduler, the podman binary, the SQL engine's failure modes) are passed in
as explicit parameters so that theorems quantify over their behaviour.
-/

namespace AnCLI

/-- Timestamps: Go `time.Time` modelled as Unix nanoseconds. -/
abbrev Time := Int

/-- `a.After(b)` in Go. -/
def timeAfter (a b : Time) : Prop := b < a

namespace domain

/-- Go `domain.Rating` is an `int`; the constants below are `iota + 1`. -/
abbrev Rating := Int

/-- 1 - Complete failure, need to see again soon. -/
def Again : Rating := 1

/-- 2 - Difficult, longer interval than Again but shorter than Good. -/
def Hard : Rating := 2

/-- 3 - Correct response, standard interval. -/
def Good : Rating := 3

/-- 4 - Too easy, much longer interval. -/
def Easy : Rating := 4

/-- Go `unicode.IsSpace` restricted to the characters `strings.TrimSpace`
can actually strip from the inputs in question (Latin-1 range): space,
tab, newline, vertical tab, form feed, carriage return, NEL, NBSP. -/
def isSpaceGo (c : Char) : Bool :=
  c = ' ' || c = '\t' || c = '\n' || c = '\x0B' || c = '\x0C' || c = '\r' ||
    c.val = 0x85 || c.val = 0xA0

/-- Go `strings.TrimSpace`: drop leading and trailing white space. -/
def trimSpace (s : String) : String :=
  ⟨((s.data.dropWhile isSpaceGo).reverse.dropWhile isSpaceGo).reverse⟩

/-- `domain.ParseRating` (fsrs.go lines 101-118): trim white space, then an
exact `switch` on the trimmed string; the `default` arm returns an
`InvalidRatingError`. -/
def ParseRating (input : String) : Except String Rating :=
  let i := trimSpace input
  if i = "1" ∨ i = "again" ∨ i = "Again" ∨ i = "AGAIN" ∨ i = "a" ∨ i = "A" then
    .ok Again
  else if i = "2" ∨ i = "hard" ∨ i = "Hard" ∨ i = "HARD" ∨ i = "h" ∨ i = "H" then
    .ok Hard
  else if i = "3" ∨ i = "good" ∨ i = "Good" ∨ i = "GOOD" ∨ i = "g" ∨ i = "G" then
    .ok Good
  else if i = "4" ∨ i = "easy" ∨ i = "Easy" ∨ i = "EASY" ∨ i = "e" ∨ i = "E" then
    .ok Easy
  else
    .error ("invalid rating: " ++ i ++ " (valid: 1-4, Again/Hard/Good/Easy, a/h/g/e)")

/-- The exact strings the `switch` maps to `Again`. -/
def againInputs : List String := ["1", "again", "Again", "AGAIN", "a", "A"]

/-- The exact strings the `switch` maps to `Hard`. -/
def hardInputs : List String := ["2", "hard", "Hard", "HARD", "h", "H"]

/-- The exact strings the `switch` maps to `Good`. -/
def goodInputs : List String := ["3", "good", "Good", "GOOD", "g", "G"]

/-- The exact strings the `switch` maps to `Easy`. -/
def easyInputs : List String := ["4", "easy", "Easy", "EASY", "e", "E"]

/-- `domain.ExecutionResult`: shared execution outcome type. -/
structure ExecutionResult where
  success : Bool
  exitCode : Int
  stdout : String
  stderr : String
  duration : Int
  thinkingTime : Int
  containerID : String
  imageUsed : String
  networkEnabled : Bool
deriving Repr, DecidableEq

end domain

end AnCLI

namespace AnCLI.sandbox

/-- `sandbox.ExecutionConfig`: parameters for sandboxed command execution.
`map[string]string` fields are modelled as association lists. -/
structure ExecutionConfig where
  image : String
  command : List String
  workingDir : String
  environment : List (String × String)
  networkEnabled : Bool
  capabilities : List String
  readOnlyRootFS : Bool
  tmpfsMounts : List (String × String)
  timeout : Int
  memoryLimit : String
  cpuLimit : String
  correlationID : String
deriving Repr, DecidableEq

/-- One second of Go `time.Duration` in nanoseconds. -/
def secondNs : Int := 1000000000

/-- `sandbox.NewExecutionConfig`: the secure-by-default configuration. -/
def NewExecutionConfig : ExecutionConfig :=
  { image := ""
    command := []
    workingDir := "/tmp"
    environment := []
    networkEnabled := false
    capabilities := []
    readOnlyRootFS := true
    tmpfsMounts := [("/tmp", "rw,noexec,nosuid,size=100m")]
    timeout := 30 * secondNs
    memoryLimit := ""
    cpuLimit := ""
    correlationID := "" }

/-- `ExecutionConfig.Validate`: `some msg` models returning an error
(the spec's InvalidConfig kind), `none` models a nil error. -/
def ExecutionConfig.Validate (c : ExecutionConfig) : Option String :=
  if c.image = "" then some "image is required"
  else if c.command.length = 0 then some "command is required"
  else if c.timeout ≤ 0 then some "timeout must be positive"
  else none

/-- `sandbox.ContainerLifecycle`. -/
inductive ContainerLifecycle where
  | perCard
  | sessionReuse
  | deckPersistent
deriving Repr, DecidableEq

end AnCLI.sandbox

namespace AnCLI.fsrs

/-- `fsrs.Card` from the external go-fsrs library. Go `float64` stability
and difficulty and `uint64` counters are modelled as integers; the claims
verified here never compute with them, only move them between records. -/
structure Card where
  due : AnCLI.Time
  stability : Int
  difficulty : Int
  elapsedDays : Int
  scheduledDays : Int
  reps : Int
  lapses : Int
  state : Int
  lastReview : AnCLI.Time
deriving Repr, DecidableEq

end AnCLI.fsrs

namespace AnCLI.storage

open AnCLI (Time)

/-- `storage.Card`: a card row, FSRS state embedded. JSON-blob columns stay
strings as in the source; nullable columns are `Option`. -/
structure Card where
  id : Int
  deckID : Int
  cardKey : String
  title : String
  description : String
  command : String
  workingDir : String
  environmentVars : String
  image : Option String
  timeout : Option Int
  networkEnabled : Option Bool
  capabilities : Option String
  difficultyLevel : Int
  tags : String
  prerequisites : String
  prerequisiteMode : String
  fsrsDue : Time
  fsrsStability : Int
  fsrsDifficulty : Int
  fsrsElapsedDays : Int
  fsrsScheduledDays : Int
  fsrsReps : Int
  fsrsLapses : Int
  fsrsState : Int
  fsrsLastReview : Option Time
  createdAt : Time
  updatedAt : Time
deriving Repr, DecidableEq

/-- `storage.Review`: an append-only review history row. -/
structure Review where
  id : Int
  cardID : Int
  reviewedAt : Time
  rating : Int
  executionSuccess : Bool
  exitCode : Option Int
  stdout : String
  stderr : String
  thinkingTimeMs : Option Int
  executionTimeMs : Option Int
  totalTimeMs : Option Int
  attempts : Int
  helpAccessed : Bool
  fsrsDueBefore : Time
  fsrsDueAfter : Time
  fsrsStabilityBefore : Int
  fsrsStabilityAfter : Int
  fsrsDifficultyBefore : Int
  fsrsDifficultyAfter : Int
deriving Repr, DecidableEq

/-- `(*Card).ToFSRSCard` (fsrs_helpers.go): nil last-review becomes the
zero time; the `uint64` casts are the identity on the in-range values. -/
def Card.ToFSRSCard (c : Card) : AnCLI.fsrs.Card :=
  let lastReview := match c.fsrsLastReview with
    | some t => t
    | none => 0
  { due := c.fsrsDue
    stability := c.fsrsStability
    difficulty := c.fsrsDifficulty
    elapsedDays := c.fsrsElapsedDays
    scheduledDays := c.fsrsScheduledDays
    reps := c.fsrsReps
    lapses := c.fsrsLapses
    state := c.fsrsState
    lastReview := lastReview }

/-- `(*Card).UpdateFromFSRSCard` (fsrs_helpers.go): copy the FSRS vector
back into the row and stamp `UpdatedAt` with `time.Now()` (passed as
`now`). -/
def Card.UpdateFromFSRSCard (c : Card) (f : AnCLI.fsrs.Card) (now : Time) : Card :=
  { c with
    fsrsDue := f.due
    fsrsStability := f.stability
    fsrsDifficulty := f.difficulty
    fsrsElapsedDays := f.elapsedDays
    fsrsScheduledDays := f.scheduledDays
    fsrsReps := f.reps
    fsrsLapses := f.lapses
    fsrsState := f.state
    fsrsLastReview := some f.lastReview
    updatedAt := now }

/-- The `cards` and `reviews` tables of the SQLite store, as row lists,
plus the next `reviews` rowid. -/
structure StoreState where
  cards : List Card
  reviews : List Review
  nextReviewID : Int
deriving Repr, DecidableEq

/-- Injected backend failures: each flag makes the corresponding storage
operation return an error (the spec's BackendUnavailable/StoreUnavailable
family) instead of touching the tables. The Go service only sees the
`Storage` interface, so its behaviour must be analysed under every
combination. -/
structure StoreFaults where
  getCardFails : Bool
  updateCardFails : Bool
  createReviewFails : Bool
deriving Repr, DecidableEq

/-- A fault-free backend. -/
def noFaults : StoreFaults :=
  { getCardFails := false, updateCardFails := false, createReviewFails := false }

/-- `(*DB).GetCard`: SELECT by id; `sql.ErrNoRows` becomes an error. -/
def StoreState.GetCard (st : StoreState) (faults : StoreFaults) (id : Int) :
    Except String Card :=
  if faults.getCardFails then .error "failed to get card"
  else match st.cards.find? (fun c => c.id = id) with
    | some c => .ok c
    | none => .error "card not found"

/-- The column set written by `(*DB).UpdateCard`'s UPDATE statement:
everything except `id` (the WHERE key), `deck_id`, `card_key` and
`created_at`, with `updated_at = datetime('now')`. -/
def updateCardRow (old new : Card) (dbNow : Time) : Card :=
  { new with
    id := old.id
    deckID := old.deckID
    cardKey := old.cardKey
    createdAt := old.createdAt
    updatedAt := dbNow }

/-- `(*DB).UpdateCard`: full-row UPDATE keyed on `card.ID`. A backend
fault leaves the table untouched and surfaces an error. -/
def StoreState.UpdateCard (st : StoreState) (faults : StoreFaults) (card : Card)
    (dbNow : Time) : Except String StoreState :=
  if faults.updateCardFails then .error "failed to update card"
  else .ok { st with
    cards := st.cards.map (fun c => if c.id = card.id then updateCardRow c card dbNow else c) }

/-- The column list of `(*DB).CreateReview`'s INSERT statement, verbatim.
`reviewed_at` is absent, so the row takes the schema default
`CURRENT_TIMESTAMP`. -/
def createReviewColumns : List String :=
  ["card_id", "rating", "execution_success", "exit_code", "stdout", "stderr",
   "thinking_time_ms", "execution_time_ms", "total_time_ms", "attempts", "help_accessed",
   "fsrs_due_before", "fsrs_due_after", "fsrs_stability_before", "fsrs_stability_after",
   "fsrs_difficulty_before", "fsrs_difficulty_after"]

/-- `(*DB).CreateReview`: INSERT the columns of `createReviewColumns`
(the stored row's `reviewed_at` is the database clock `dbNow` by schema
default), then set the passed value's `ID` from `LastInsertId` and its
`ReviewedAt` to `time.Now()` (`goNow`); the mutated value is returned. -/
def StoreState.CreateReview (st : StoreState) (faults : StoreFaults) (r : Review)
    (dbNow goNow : Time) : Except String (StoreState × Review) :=
  if faults.createReviewFails then .error "failed to create review"
  else
    let stored := { r with id := st.nextReviewID, reviewedAt := dbNow }
    let returned := { r with id := st.nextReviewID, reviewedAt := goNow }
    .ok ({ st with
            reviews := st.reviews ++ [stored]
            nextReviewID := st.nextReviewID + 1 },
         returned)

end AnCLI.storage

namespace AnCLI.review

open AnCLI (Time)
open AnCLI.domain AnCLI.storage

/-- `review.SessionOptions`. -/
structure SessionOptions where
  deckID : Option Int
  maxCards : Int
  newCardsOnly : Bool
  reviewCardsOnly : Bool
  shuffleCards : Bool
  networkEnabled : Bool
deriving Repr, DecidableEq

/-- `review.Session` together with the service-private `cardQueue`
(`sessionState` in service.go). The claims all concern one active
session, so the service's `sessions` map is represented by the single
entry the session id selects. -/
structure SessionState where
  id : String
  startedAt : Time
  deckID : Option Int
  options : SessionOptions
  cardsReviewed : Int
  cardsRemaining : Int
  currentCardID : Option Int
  cardQueue : List Int
deriving Repr, DecidableEq

/-- `review.SessionStats`. -/
structure SessionStats where
  sessionID : String
  duration : Int
  cardsReviewed : Int
  newCards : Int
  reviewCards : Int
  againCount : Int
  hardCount : Int
  goodCount : Int
  easyCount : Int
  averageRating : Int
deriving Repr, DecidableEq

/-- The per-card filter body of `queryCardsForSession` (service.go lines
231-246): the three `continue` guards, in source order. `now` is the
`time.Now()` taken once before the loop. -/
def sessionCardFilter (opts : SessionOptions) (now : Time) (card : Card) : Bool :=
  if opts.newCardsOnly ∧ card.fsrsReps > 0 then false
  else if opts.reviewCardsOnly ∧ card.fsrsReps = 0 then false
  else if card.fsrsReps > 0 ∧ now < card.fsrsDue then false
  else true

/-- `queryCardsForSession` (service.go lines 213-249): fetch per deck
filter (`GetCardsByDeck` / `GetAllCards`), then apply the per-card
filter. -/
def queryCardsForSession (st : StoreState) (opts : SessionOptions) (now : Time) :
    List Card :=
  let cards := match opts.deckID with
    | some d => st.cards.filter (fun (c : Card) => c.deckID = d)
    | none => st.cards
  cards.filter (sessionCardFilter opts now)

/-- `StartSession` (service.go lines 44-93). `shuffleFn` stands for the
in-place `rand.Shuffle` permutation; `queryNow` is the `time.Now()` used
inside `queryCardsForSession` and `startNow` the later `time.Now()`
stored in `StartedAt`. -/
def StartSession (shuffleFn : List Int → List Int) (sessionID : String)
    (st : StoreState) (opts : SessionOptions) (queryNow startNow : Time) :
    Except String SessionState :=
  let cards := queryCardsForSession st opts queryNow
  if cards.length = 0 then
    .error "no cards available for review with the given options"
  else
    let cardQueue := cards.map (fun c => c.id)
    let cardQueue := if opts.shuffleCards then shuffleFn cardQueue else cardQueue
    let cardQueue :=
      if opts.maxCards > 0 ∧ (cardQueue.length : Int) > opts.maxCards then
        cardQueue.take opts.maxCards.toNat
      else cardQueue
    .ok { id := sessionID
          startedAt := startNow
          deckID := opts.deckID
          options := opts
          cardsReviewed := 0
          cardsRemaining := (cardQueue.length : Int)
          currentCardID := none
          cardQueue := cardQueue }

/-- `createReviewRecord` (service.go lines 322-355): build the
`storage.Review` value; unset Go struct fields are zero values. -/
def createReviewRecord (cardID : Int) (rating : Rating)
    (executionResult : Option ExecutionResult)
    (fsrsCardBefore fsrsCardAfter : AnCLI.fsrs.Card) (now : Time) : Review :=
  let base : Review :=
    { id := 0
      cardID := cardID
      reviewedAt := now
      rating := rating
      executionSuccess := false
      exitCode := none
      stdout := ""
      stderr := ""
      thinkingTimeMs := none
      executionTimeMs := none
      totalTimeMs := none
      attempts := 0
      helpAccessed := false
      fsrsDueBefore := fsrsCardBefore.due
      fsrsDueAfter := fsrsCardAfter.due
      fsrsStabilityBefore := fsrsCardBefore.stability
      fsrsStabilityAfter := fsrsCardAfter.stability
      fsrsDifficultyBefore := fsrsCardBefore.difficulty
      fsrsDifficultyAfter := fsrsCardAfter.difficulty }
  match executionResult with
  | none => base
  | some er =>
    { base with
      executionSuccess := er.success
      exitCode := some er.exitCode
      stdout := er.stdout
      stderr := er.stderr
      executionTimeMs := if er.duration > 0 then some (er.duration / 1000000) else none
      thinkingTimeMs := if er.thinkingTime > 0 then some (er.thinkingTime / 1000000) else none }

/-- The error paths of `SubmitReview`, in source order. Each constructor
stands for the `fmt.Errorf` of the matching early return. -/
inductive SubmitError where
  | getCardFailed
  | invalidRating (r : Rating)
  | updateCardFailed
  | createReviewFailed
deriving Repr, DecidableEq

/-- Result of one `SubmitReview` call: what the store and the session
look like afterwards, and the returned error if any. The store is
reported even on error because the Go code has no transaction: a partial
commit stays visible. -/
structure SubmitResult where
  error : Option SubmitError
  store : StoreState
  session : SessionState
deriving Repr, DecidableEq

/-- `SubmitReview` (service.go lines 128-186), for an active session.
`sched` stands for the external `scheduler.ReviewCard` / `fsrs.Next`
(which reads `time.Now()`, passed as `now`). The steps, in source order:
`GetCard`; `ToFSRSCard`; the rating `switch` (default → invalid rating);
`sched`; `UpdateFromFSRSCard`; `storage.UpdateCard`; `createReviewRecord`
+ `storage.CreateReview`; counter updates; pop of the queue head only
when it equals `cardID`. There is no transaction around the two writes
and no comparison of `cardID` with the session's current card. -/
def SubmitReview (sched : AnCLI.fsrs.Card → Rating → Time → AnCLI.fsrs.Card)
    (faults : StoreFaults) (st : StoreState) (sess : SessionState)
    (cardID : Int) (rating : Rating) (executionResult : Option ExecutionResult)
    (now : Time) : SubmitResult :=
  match st.GetCard faults cardID with
  | .error _ => { error := some .getCardFailed, store := st, session := sess }
  | .ok card =>
    let fsrsCard := card.ToFSRSCard
    if rating = Again ∨ rating = Hard ∨ rating = Good ∨ rating = Easy then
      let scheduledCard := sched fsrsCard rating now
      let card := card.UpdateFromFSRSCard scheduledCard now
      match st.UpdateCard faults card now with
      | .error _ => { error := some .updateCardFailed, store := st, session := sess }
      | .ok st =>
        let review := createReviewRecord cardID rating executionResult fsrsCard scheduledCard now
        match st.CreateReview faults review now now with
        | .error _ => { error := some .createReviewFailed, store := st, session := sess }
        | .ok (st, _) =>
          let sess := { sess with
            cardsReviewed := sess.cardsReviewed + 1
            cardsRemaining := sess.cardsRemaining - 1
            currentCardID := none }
          let sess := { sess with
            cardQueue :=
              match sess.cardQueue with
              | head :: rest => if head = cardID then rest else sess.cardQueue
              | [] => sess.cardQueue }
          { error := none, store := st, session := sess }
    else
      { error := some (.invalidRating rating), store := st, session := sess }

/-- `EndSession` (service.go lines 189-210): duration from the session
start; `CardsReviewed` from the in-memory counter; every other statistic
is left at its zero value (the `TODO` fields). -/
def EndSession (sess : SessionState) (now : Time) : SessionStats :=
  { sessionID := sess.id
    duration := now - sess.startedAt
    cardsReviewed := sess.cardsReviewed
    newCards := 0
    reviewCards := 0
    againCount := 0
    hardCount := 0
    goodCount := 0
    easyCount := 0
    averageRating := 0 }

end AnCLI.review

namespace AnCLI.podman

open AnCLI (Time)
open AnCLI.sandbox
open AnCLI.domain (trimSpace)

/-- `sandbox.ExecutionResult` (port.go): the driver-level result record. -/
structure SandboxResult where
  exitCode : Int
  success : Bool
  stdout : String
  stderr : String
  startedAt : Time
  duration : Int
  containerID : String
  imageUsed : String
  correlationID : String
deriving Repr, DecidableEq

/-- `podman.Driver`: backend path, lifecycle mode and the mutex-guarded
container identity. -/
structure Driver where
  podmanPath : String
  lifecycle : ContainerLifecycle
  containerID : String
  containerName : String
deriving Repr, DecidableEq

/-- What `cmd.Run()` of the `podman exec` child reports back
(execInContainer's `err`), discriminated the way the Go code does:
a completed process (`err == nil` iff status 0, else an `exec.ExitError`
carrying the status); a process killed because the
`context.WithTimeout(ctx, config.Timeout)` deadline elapsed, surfaced as
an `exec.ExitError` whose `WaitStatus.ExitStatus()` is `-1` (signalled
process); the same deadline surfaced as a non-`ExitError` error; or a
non-`ExitError` launch failure unrelated to the deadline. -/
inductive ExecOutcome where
  | completed (exitStatus : Int)
  | timeoutKilled
  | timeoutOther
  | launchFailed
deriving Repr, DecidableEq

/-- `err == nil` after `cmd.Run()`. -/
def ExecOutcome.runErrIsNil : ExecOutcome → Bool
  | .completed s => s == 0
  | _ => false

/-- The exit-code extraction of execInContainer: start from 0; on error
take `ExitStatus()` when the error is an `exec.ExitError` with a wait
status, else `-1`. -/
def ExecOutcome.extractedExitCode : ExecOutcome → Int
  | .completed s => s
  | .timeoutKilled => -1
  | .timeoutOther => -1
  | .launchFailed => -1

/-- The outcome was caused by the per-command deadline elapsing. -/
def ExecOutcome.isTimeout : ExecOutcome → Bool
  | .timeoutKilled => true
  | .timeoutOther => true
  | _ => false

/-- The error values `(*Driver).Run` and its helpers can return; each
constructor is one `fmt.Errorf` site, carrying what it wraps. -/
inductive RunError where
  | invalidConfig (msg : String)
  | perCardNotImplemented
  | unsupportedLifecycle
  | ensureFailed (msg : String)
  | execFailed (cause : ExecOutcome)
deriving Repr, DecidableEq

/-- An error whose cause (via the `%w` chain) is the elapsed per-command
deadline — the spec's Timeout kind. -/
def RunError.isTimeoutKind : RunError → Bool
  | .execFailed cause => cause.isTimeout
  | _ => false

/-- Responses of the external podman binary for one `Run` call: the
`container inspect` liveness probe, the detached `podman run` launch and
the `podman exec` child. -/
structure PodmanEnv where
  inspectSaysRunning : Bool
  startErr : Bool
  startStdout : String
  execOutcome : ExecOutcome
  execStdout : String
  execStderr : String
deriving Repr, DecidableEq

/-- `ensureContainer` (integration_test.go driver part): reuse the held
container when `inspect` reports it running; otherwise clear the
identity, pick the name `ancli-session-<nanos>`, launch detached, and
take the trimmed stdout as the new container id (empty stdout is an
error). -/
def ensureContainer (d : Driver) (env : PodmanEnv) (nowNanos : Int) :
    Except String Driver :=
  if d.containerID ≠ "" ∧ env.inspectSaysRunning then .ok d
  else
    let d := { d with containerID := "",
                      containerName := "ancli-session-" ++ toString nowNanos }
    if env.startErr then .error "failed to start container"
    else
      let cid := trimSpace env.startStdout
      if cid = "" then .error "failed to get container ID from stdout"
      else .ok { d with containerID := cid }

/-- `execInContainer` (integration_test.go lines 475-553): build the
result from the captured buffers and the extracted exit code;
`Success := err == nil`; return the result with a wrapping error exactly
when `err != nil && exitCode == -1`. -/
def execInContainer (d : Driver) (config : ExecutionConfig) (env : PodmanEnv)
    (startTime now : Time) : SandboxResult × Option RunError :=
  let exitCode := env.execOutcome.extractedExitCode
  let success := env.execOutcome.runErrIsNil
  let result : SandboxResult :=
    { exitCode := exitCode
      success := success
      stdout := env.execStdout
      stderr := env.execStderr
      startedAt := startTime
      duration := now - startTime
      containerID := d.containerID
      imageUsed := config.image
      correlationID := config.correlationID }
  if ¬env.execOutcome.runErrIsNil ∧ exitCode = -1 then
    (result, some (.execFailed env.execOutcome))
  else
    (result, none)

/-- `(*Driver).Run` (integration_test.go lines 348-370): validate the
config first and return the validation error without touching podman;
then dispatch on the lifecycle; session-reuse ensures the container and
execs in it. -/
def Run (d : Driver) (config : ExecutionConfig) (env : PodmanEnv)
    (startTime nowNanos now : Time) :
    Driver × Option SandboxResult × Option RunError :=
  match config.Validate with
  | some msg => (d, none, some (.invalidConfig msg))
  | none =>
    match d.lifecycle with
    | .perCard => (d, none, some .perCardNotImplemented)
    | .sessionReuse =>
      match ensureContainer d env nowNanos with
      | .error msg => (d, none, some (.ensureFailed msg))
      | .ok d =>
        let (result, err) := execInContainer d config env startTime now
        (d, some result, err)
    | .deckPersistent => (d, none, some .unsupportedLifecycle)

end AnCLI.podman

namespace AnCLI

open AnCLI.domain AnCLI.storage AnCLI.review AnCLI.sandbox AnCLI.podman

/-- A validating configuration used as a concrete witness input. -/
def demoConfig : ExecutionConfig :=
  { NewExecutionConfig with image := "alpine:3.18", command := ["sh", "-c", "sleep 5"] }

/-- A session-reuse driver already holding a live container. -/
def demoDriver : Driver :=
  { podmanPath := "/usr/bin/podman"
    lifecycle := .sessionReuse
    containerID := "c0ffee"
    containerName := "ancli-session-1" }

/-- A podman environment in which the per-command deadline elapses and the
child is killed. -/
def demoTimeoutEnv : PodmanEnv :=
  { inspectSaysRunning := true
    startErr := false
    startStdout := ""
    execOutcome := .timeoutKilled
    execStdout := ""
    execStderr := "" }

/-- C7: `NewExecutionConfig` returns working directory "/tmp", network
disabled, an empty capability list, read-only root filesystem, exactly one
tmpfs mount at "/tmp" with options "rw,noexec,nosuid,size=100m", and a
30-second per-command timeout. -/
theorem newExecutionConfig_secure_defaults :
    NewExecutionConfig.workingDir = "/tmp" ∧
    NewExecutionConfig.networkEnabled = false ∧
    NewExecutionConfig.capabilities = [] ∧
    NewExecutionConfig.readOnlyRootFS = true ∧
    NewExecutionConfig.tmpfsMounts = [("/tmp", "rw,noexec,nosuid,size=100m")] ∧
    NewExecutionConfig.timeout = 30 * secondNs :=
  ⟨rfl, rfl, rfl, rfl, rfl, rfl⟩

/-- C8: `Validate` reports an error exactly when the image is missing, the
argv vector is empty, or the timeout is non-positive; and `Run` on a config
failing validation returns that validation error with no result, leaving
the driver untouched and never consulting the podman backend. -/
theorem validate_iff_and_run_short_circuits :
    (∀ c : ExecutionConfig,
      (c.Validate).isSome ↔ (c.image = "" ∨ c.command = [] ∨ c.timeout ≤ 0)) ∧
    (∀ (d : Driver) (c : ExecutionConfig) (env : PodmanEnv) (t1 t2 t3 : Time)
      (msg : String), c.Validate = some msg →
      Run d c env t1 t2 t3 = (d, none, some (.invalidConfig msg))) := by
  constructor
  · intro c
    unfold ExecutionConfig.Validate
    split_ifs with h1 h2 h3 <;>
      simp_all [List.length_eq_zero]
  · intro d c env t1 t2 t3 msg hval
    unfold Run
    rw [hval]

/-- Witness for C8 at a concrete input: the secure default config has no
image, so `Run` fails with the validation error and produces no result. -/
theorem validate_iff_and_run_short_circuits_witness :
    Run demoDriver NewExecutionConfig demoTimeoutEnv 0 0 0 =
      (demoDriver, none, some (.invalidConfig "image is required")) :=
  validate_iff_and_run_short_circuits.2 demoDriver NewExecutionConfig demoTimeoutEnv
    0 0 0 "image is required" rfl

/-- C5: when the per-command deadline elapses during the exec, `Run`
returns a result carrying exit code -1 and success = false, together with
an error whose cause is the elapsed deadline (the Timeout kind). -/
theorem run_timeout_result (d : Driver) (config : ExecutionConfig)
    (env : PodmanEnv) (t1 t2 t3 : Time)
    (hval : config.Validate = none)
    (hlc : d.lifecycle = .sessionReuse)
    (hensure : (d.containerID ≠ "" ∧ env.inspectSaysRunning) ∨
               (env.startErr = false ∧ AnCLI.domain.trimSpace env.startStdout ≠ ""))
    (hto : env.execOutcome.isTimeout = true) :
    ∃ (d2 : Driver) (r : SandboxResult) (e : RunError),
      Run d config env t1 t2 t3 = (d2, some r, some e) ∧
      r.exitCode = -1 ∧ r.success = false ∧ e.isTimeoutKind = true := by
  have hex : env.execOutcome = .timeoutKilled ∨ env.execOutcome = .timeoutOther := by
    cases h : env.execOutcome <;> simp_all [ExecOutcome.isTimeout]
  have hensOk : ∃ d2, ensureContainer d env t2 = .ok d2 := by
    unfold ensureContainer
    rcases hensure with ⟨h1, h2⟩ | ⟨h1, h2⟩
    · rw [if_pos ⟨h1, h2⟩]; exact ⟨d, rfl⟩
    · by_cases hre : d.containerID ≠ "" ∧ env.inspectSaysRunning
      · rw [if_pos hre]; exact ⟨d, rfl⟩
      · rw [if_neg hre, if_neg (by simp [h1]), if_neg h2]
        exact ⟨_, rfl⟩
  obtain ⟨d2, hd2⟩ := hensOk
  have hexec : execInContainer d2 config env t1 t3 =
      ({ exitCode := -1, success := false, stdout := env.execStdout,
         stderr := env.execStderr, startedAt := t1, duration := t3 - t1,
         containerID := d2.containerID, imageUsed := config.image,
         correlationID := config.correlationID },
       some (.execFailed env.execOutcome)) := by
    rcases hex with hex | hex <;>
      simp [execInContainer, hex, ExecOutcome.extractedExitCode,
        ExecOutcome.runErrIsNil]
  refine ⟨d2,
    { exitCode := -1, success := false, stdout := env.execStdout,
      stderr := env.execStderr, startedAt := t1, duration := t3 - t1,
      containerID := d2.containerID, imageUsed := config.image,
      correlationID := config.correlationID },
    .execFailed env.execOutcome, ?_, rfl, rfl, ?_⟩
  · unfold Run
    rw [hval, hlc, hd2]
    simp [hexec]
  · rcases hex with hex | hex <;>
      simp [RunError.isTimeoutKind, hex, ExecOutcome.isTimeout]

/-- Witness for C5 at a concrete input: the demo driver with a live
container, a valid config, and a deadline-killed exec. -/
theorem run_timeout_result_witness :
    ∃ (d2 : Driver) (r : SandboxResult) (e : RunError),
      Run demoDriver demoConfig demoTimeoutEnv 0 0 7 = (d2, some r, some e) ∧
      r.exitCode = -1 ∧ r.success = false ∧ e.isTimeoutKind = true :=
  run_timeout_result demoDriver demoConfig demoTimeoutEnv 0 0 7 rfl rfl
    (Or.inl ⟨by simp [demoDriver], by simp [demoTimeoutEnv]⟩) rfl

/-- C4 counterexample: "aGaIn" is a case variant of "again", yet
`ParseRating` rejects it with an InvalidRating error — the parser is not
case-insensitive, it matches the three listed casings exactly. -/
theorem parseRating_mixed_case_rejected :
    ParseRating "aGaIn" =
      .error "invalid rating: aGaIn (valid: 1-4, Again/Hard/Good/Easy, a/h/g/e)" := by
  rfl

/-- C4 (amended): after trimming surrounding whitespace, `ParseRating`
maps exactly the strings "1"/"again"/"Again"/"AGAIN"/"a"/"A" to Again —
the lowercase, capitalised and all-caps word forms plus both letter cases,
not every casing — analogously for Hard, Good and Easy, and returns an
InvalidRating error for every other string (mixed casings such as "aGaIn"
included). -/
theorem parseRating_exact_sets (s : String) :
    (ParseRating s = .ok Again ↔ trimSpace s ∈ againInputs) ∧
    (ParseRating s = .ok Hard ↔ trimSpace s ∈ hardInputs) ∧
    (ParseRating s = .ok Good ↔ trimSpace s ∈ goodInputs) ∧
    (ParseRating s = .ok Easy ↔ trimSpace s ∈ easyInputs) ∧
    ((∃ e, ParseRating s = .error e) ↔
      trimSpace s ∉ againInputs ++ hardInputs ++ goodInputs ++ easyInputs) := by
  unfold ParseRating
  simp only [againInputs, hardInputs, goodInputs, easyInputs, List.mem_append,
    List.mem_cons, List.not_mem_nil, or_false]
  split_ifs with h1 h2 h3 h4
  · rcases h1 with h | h | h | h | h | h <;> simp_all [Again, Hard, Good, Easy]
  · rcases h2 with h | h | h | h | h | h <;> simp_all [Again, Hard, Good, Easy]
  · rcases h3 with h | h | h | h | h | h <;> simp_all [Again, Hard, Good, Easy]
  · rcases h4 with h | h | h | h | h | h <;> simp_all [Again, Hard, Good, Easy]
  · simp_all [Again, Hard, Good, Easy]

/-- The three `continue` guards of the session filter, as propositions. -/
theorem sessionCardFilter_true_iff (opts : SessionOptions) (now : Time) (card : Card) :
    sessionCardFilter opts now card = true ↔
      ¬(opts.newCardsOnly ∧ card.fsrsReps > 0) ∧
      ¬(opts.reviewCardsOnly ∧ card.fsrsReps = 0) ∧
      ¬(card.fsrsReps > 0 ∧ now < card.fsrsDue) := by
  unfold sessionCardFilter
  split_ifs with a b c <;> simp_all

/-- Queue soundness of `StartSession`: the session starts at `startNow`
and every queued id is the id of a card surviving
`queryCardsForSession` (the shuffle only permutes, the truncation only
drops). -/
theorem StartSession_queue_mem (shuffleFn : List Int → List Int)
    (hsh : ∀ (l : List Int) (x : Int), x ∈ shuffleFn l → x ∈ l)
    (sessionID : String) (st : StoreState) (opts : SessionOptions)
    (queryNow startNow : Time) (sess : SessionState)
    (hs : StartSession shuffleFn sessionID st opts queryNow startNow = .ok sess) :
    sess.startedAt = startNow ∧
    ∀ cid ∈ sess.cardQueue,
      ∃ c ∈ queryCardsForSession st opts queryNow, c.id = cid := by
  simp only [StartSession] at hs
  split at hs
  · exact absurd hs (by simp)
  · injection hs with hs
    subst hs
    refine ⟨rfl, ?_⟩
    intro cid hcid
    simp only at hcid
    have hm : cid ∈ (queryCardsForSession st opts queryNow).map (fun c => c.id) := by
      split at hcid <;> split at hcid <;>
        first
          | exact hsh _ _ (List.mem_of_mem_take hcid)
          | exact List.mem_of_mem_take hcid
          | exact hsh _ _ hcid
          | exact hcid
    obtain ⟨c, hc, hceq⟩ := List.mem_map.mp hm
    exact ⟨c, hc, hceq⟩

/-- Membership in `queryCardsForSession` implies membership in the cards
table and all three filter guards. -/
theorem queryCards_mem (st : StoreState) (opts : SessionOptions) (now : Time)
    (c : Card) (hc : c ∈ queryCardsForSession st opts now) :
    c ∈ st.cards ∧
      ¬(opts.newCardsOnly ∧ c.fsrsReps > 0) ∧
      ¬(opts.reviewCardsOnly ∧ c.fsrsReps = 0) ∧
      ¬(c.fsrsReps > 0 ∧ now < c.fsrsDue) := by
  unfold queryCardsForSession at hc
  obtain ⟨hfetch, hfilt⟩ := List.mem_filter.mp hc
  refine ⟨?_, (sessionCardFilter_true_iff opts now c).mp hfilt⟩
  rcases hdk : opts.deckID with _ | d <;> rw [hdk] at hfetch
  · exact hfetch
  · exact List.mem_of_mem_filter hfetch

/-- A brand-new card: reps = 0, state New, never reviewed. -/
def demoNewCard : Card :=
  { id := 1, deckID := 1, cardKey := "k1", title := "t1", description := ""
    command := "echo hello", workingDir := "/tmp", environmentVars := ""
    image := none, timeout := none, networkEnabled := none, capabilities := none
    difficultyLevel := 1, tags := "", prerequisites := "", prerequisiteMode := "link"
    fsrsDue := 100, fsrsStability := 0, fsrsDifficulty := 0, fsrsElapsedDays := 0
    fsrsScheduledDays := 0, fsrsReps := 0, fsrsLapses := 0, fsrsState := 0
    fsrsLastReview := none, createdAt := 50, updatedAt := 50 }

/-- A card already reviewed once (reps = 1) and due in the past. -/
def demoReviewCard : Card :=
  { demoNewCard with
    id := 2
    cardKey := "k2"
    title := "t2"
    fsrsReps := 1
    fsrsState := 2
    fsrsStability := 3
    fsrsDifficulty := 5
    fsrsDue := 100
    fsrsLastReview := some 60 }

/-- Session options asking for due cards only (due-only = true,
new-only = false). -/
def demoDueOnlyOpts : SessionOptions :=
  { deckID := none, maxCards := 0, newCardsOnly := false, reviewCardsOnly := true,
    shuffleCards := false, networkEnabled := false }

/-- Session options with every filter flag off. -/
def demoDefaultOpts : SessionOptions :=
  { demoDueOnlyOpts with reviewCardsOnly := false }

/-- A store holding only the new card. -/
def demoStoreNew : StoreState :=
  { cards := [demoNewCard], reviews := [], nextReviewID := 1 }

/-- A store holding the new card and the due review card. -/
def demoStoreMix : StoreState :=
  { cards := [demoNewCard, demoReviewCard], reviews := [], nextReviewID := 1 }

/-- C3 counterexample: the store holds a card with reps = 0, yet a session
started with due-only = true and new-only = false does not include it —
the query filters it out and `StartSession` even fails for lack of
cards. -/
theorem dueOnly_drops_new_counterexample :
    demoNewCard.fsrsReps = 0 ∧
    queryCardsForSession demoStoreNew demoDueOnlyOpts 1000 = [] ∧
    StartSession id "s1" demoStoreNew demoDueOnlyOpts 1000 1000 =
      .error "no cards available for review with the given options" :=
  ⟨rfl, rfl, rfl⟩

/-- C3 (amended): the queue is built by fetching cards per deck filter,
applying the predicates, shuffling on request and truncating to
max-cards, but a session with due-only = true and new-only = false
excludes cards with reps = 0: every queued id is the id of a stored card
with reps ≠ 0, due at or before the query time when reps > 0. New cards
are not exempted from the due-only predicate. -/
theorem startSession_dueOnly_excludes_new (shuffleFn : List Int → List Int)
    (hsh : ∀ (l : List Int) (x : Int), x ∈ shuffleFn l → x ∈ l)
    (sessionID : String) (st : StoreState) (opts : SessionOptions)
    (queryNow startNow : Time) (sess : SessionState)
    (hNew : opts.newCardsOnly = false) (hDue : opts.reviewCardsOnly = true)
    (hs : StartSession shuffleFn sessionID st opts queryNow startNow = .ok sess) :
    ∀ cid ∈ sess.cardQueue, ∃ c, c ∈ st.cards ∧ c.id = cid ∧
      c.fsrsReps ≠ 0 ∧ (0 < c.fsrsReps → c.fsrsDue ≤ queryNow) := by
  obtain ⟨-, hq⟩ :=
    StartSession_queue_mem shuffleFn hsh sessionID st opts queryNow startNow sess hs
  intro cid hcid
  obtain ⟨c, hc, hceq⟩ := hq cid hcid
  obtain ⟨hmem, -, hguard2, hguard3⟩ := queryCards_mem st opts queryNow c hc
  refine ⟨c, hmem, hceq, ?_, ?_⟩
  · intro h0
    exact hguard2 ⟨hDue, h0⟩
  · intro hpos
    by_contra hlt
    push_neg at hlt
    exact hguard3 ⟨hpos, hlt⟩

/-- The due-only session the mixed store produces: only the review card
is queued. -/
def demoDueOnlySession : SessionState :=
  { id := "s2", startedAt := 1000, deckID := none, options := demoDueOnlyOpts,
    cardsReviewed := 0, cardsRemaining := 1, currentCardID := none, cardQueue := [2] }

/-- Witness for C3's amended theorem at a concrete input: the mixed store
under due-only options queues exactly the review card. -/
theorem startSession_dueOnly_excludes_new_witness :
    ∃ c, c ∈ demoStoreMix.cards ∧ c.id = 2 ∧
      c.fsrsReps ≠ 0 ∧ (0 < c.fsrsReps → c.fsrsDue ≤ 1000) :=
  startSession_dueOnly_excludes_new id (fun _ _ h => h) "s2" demoStoreMix
    demoDueOnlyOpts 1000 1000 demoDueOnlySession rfl rfl (by rfl) 2
    (by simp [demoDueOnlySession])

/-- C9: the dueness filter is applied to every session unconditionally —
even with due-only = false and new-only = false, no queued id belongs to
a card with reps > 0 whose due timestamp lies after the session start
(taken at or after the query instant). -/
theorem dueness_filter_unconditional (shuffleFn : List Int → List Int)
    (hsh : ∀ (l : List Int) (x : Int), x ∈ shuffleFn l → x ∈ l)
    (sessionID : String) (st : StoreState) (opts : SessionOptions)
    (queryNow startNow : Time) (sess : SessionState)
    (hNew : opts.newCardsOnly = false) (hDue : opts.reviewCardsOnly = false)
    (hmono : queryNow ≤ startNow)
    (hs : StartSession shuffleFn sessionID st opts queryNow startNow = .ok sess) :
    ∀ cid ∈ sess.cardQueue, ∃ c, c ∈ st.cards ∧ c.id = cid ∧
      ¬(0 < c.fsrsReps ∧ sess.startedAt < c.fsrsDue) := by
  obtain ⟨hstart, hq⟩ :=
    StartSession_queue_mem shuffleFn hsh sessionID st opts queryNow startNow sess hs
  intro cid hcid
  obtain ⟨c, hc, hceq⟩ := hq cid hcid
  obtain ⟨hmem, -, -, hguard3⟩ := queryCards_mem st opts queryNow c hc
  refine ⟨c, hmem, hceq, ?_⟩
  rintro ⟨hpos, hlt⟩
  rw [hstart] at hlt
  exact hguard3 ⟨hpos, lt_of_le_of_lt hmono hlt⟩

/-- The session the mixed store produces with all filter flags off: both
cards are queued. -/
def demoOpenSession : SessionState :=
  { id := "s3", startedAt := 1000, deckID := none, options := demoDefaultOpts,
    cardsReviewed := 0, cardsRemaining := 2, currentCardID := none, cardQueue := [1, 2] }

/-- Witness for C9 at a concrete input: the open session queues card 2,
which indeed is not a future-due review card. -/
theorem dueness_filter_unconditional_witness :
    ∃ c, c ∈ demoStoreMix.cards ∧ c.id = 2 ∧
      ¬(0 < c.fsrsReps ∧ demoOpenSession.startedAt < c.fsrsDue) :=
  dueness_filter_unconditional id (fun _ _ h => h) "s3" demoStoreMix
    demoDefaultOpts 900 1000 demoOpenSession rfl rfl (by decide) (by rfl) 2
    (by simp [demoOpenSession])

/-- An UPDATE keyed on id over a row list: when `find?` locates the row,
the mapped list's `find?` locates its updated image (id-preserving). -/
theorem find_update_row (cards : List Card) (cardID : Int) (card : Card)
    (g : Card → Card) (hg : ∀ c : Card, (g c).id = c.id)
    (h : cards.find? (fun c => c.id = cardID) = some card) :
    (cards.map (fun c => if c.id = cardID then g c else c)).find?
      (fun c => c.id = cardID) = some (g card) := by
  induction cards with
  | nil => simp at h
  | cons a l ih =>
    by_cases ha : a.id = cardID
    · rw [List.find?_cons_of_pos _ (by simp [ha])] at h
      injection h with h
      subst h
      simp only [List.map_cons, if_pos ha]
      rw [List.find?_cons_of_pos _ (by simp [hg, ha])]
    · rw [List.find?_cons_of_neg _ (by simp [ha])] at h
      simp only [List.map_cons, if_neg ha]
      rw [List.find?_cons_of_neg _ (by simp [hg, ha])]
      exact ih h

/-- A backend whose review INSERT fails while reads and the card UPDATE
succeed. -/
def reviewInsertFault : StoreFaults :=
  { getCardFails := false, updateCardFails := false, createReviewFails := true }

/-- Evaluation of `SubmitReview` on a fault-free backend when the card
exists and the rating is in range: both writes land, the counters move,
and the queue head is popped only when it equals `cardID`. -/
theorem SubmitReview_noFaults_eq
    (sched : AnCLI.fsrs.Card → Rating → Time → AnCLI.fsrs.Card)
    (st : StoreState) (sess : SessionState) (cardID : Int) (rating : Rating)
    (er : Option ExecutionResult) (now : Time) (card : Card)
    (hfind : st.cards.find? (fun c => c.id = cardID) = some card)
    (hrat : rating = Again ∨ rating = Hard ∨ rating = Good ∨ rating = Easy) :
    SubmitReview sched noFaults st sess cardID rating er now =
      { error := none
        store :=
          { cards := st.cards.map (fun c => if c.id = cardID then
              updateCardRow c
                (card.UpdateFromFSRSCard (sched card.ToFSRSCard rating now) now) now
              else c)
            reviews := st.reviews ++
              [{ createReviewRecord cardID rating er card.ToFSRSCard
                   (sched card.ToFSRSCard rating now) now with
                 id := st.nextReviewID, reviewedAt := now }]
            nextReviewID := st.nextReviewID + 1 }
        session :=
          { sess with
            cardsReviewed := sess.cardsReviewed + 1
            cardsRemaining := sess.cardsRemaining - 1
            currentCardID := none
            cardQueue := match sess.cardQueue with
              | head :: rest => if head = cardID then rest else sess.cardQueue
              | [] => sess.cardQueue } } := by
  have hid : card.id = cardID := by simpa using List.find?_some hfind
  subst hid
  simp [SubmitReview, StoreState.GetCard, StoreState.UpdateCard,
    StoreState.CreateReview, noFaults, hfind, if_pos hrat,
    Card.UpdateFromFSRSCard]

/-- Evaluation of `SubmitReview` when the review INSERT fails after the
card UPDATE succeeded: the error surfaces, the session is untouched, but
the updated card row stays in the store while no review row exists. -/
theorem SubmitReview_reviewFault_eq
    (sched : AnCLI.fsrs.Card → Rating → Time → AnCLI.fsrs.Card)
    (st : StoreState) (sess : SessionState) (cardID : Int) (rating : Rating)
    (er : Option ExecutionResult) (now : Time) (card : Card)
    (hfind : st.cards.find? (fun c => c.id = cardID) = some card)
    (hrat : rating = Again ∨ rating = Hard ∨ rating = Good ∨ rating = Easy) :
    SubmitReview sched reviewInsertFault st sess cardID rating er now =
      { error := some .createReviewFailed
        store :=
          { st with cards := st.cards.map (fun c => if c.id = cardID then
              updateCardRow c
                (card.UpdateFromFSRSCard (sched card.ToFSRSCard rating now) now) now
              else c) }
        session := sess } := by
  have hid : card.id = cardID := by simpa using List.find?_some hfind
  subst hid
  simp [SubmitReview, StoreState.GetCard, StoreState.UpdateCard,
    StoreState.CreateReview, reviewInsertFault, hfind, if_pos hrat,
    Card.UpdateFromFSRSCard]

/-- A stand-in instantiation of the external go-fsrs `Next`: bump reps,
move to Learning, advance the due date, record the review instant. Used
only to evaluate the coordinator at concrete inputs. -/
def demoSched (c : AnCLI.fsrs.Card) (_r : Rating) (now : Time) : AnCLI.fsrs.Card :=
  { c with reps := c.reps + 1, state := 1, due := now + 100, lastReview := now }

/-- An active session whose only queued card is the new card. -/
def demoSession1 : SessionState :=
  { id := "s4", startedAt := 900, deckID := none, options := demoDefaultOpts,
    cardsReviewed := 0, cardsRemaining := 1, currentCardID := some 1, cardQueue := [1] }

/-- C1 (amended): `SubmitReview` issues the card update (via the full-row
`UpdateCard`) and the review insert as two separate storage calls with no
enclosing transaction. When both succeed, a subsequent `GetCard` observes
both effects; but when the review insert fails after the card update
succeeded, the store keeps the updated card with no review row — an
updated card without its review row is observable. -/
theorem submitReview_commit_not_atomic
    (sched : AnCLI.fsrs.Card → Rating → Time → AnCLI.fsrs.Card)
    (st : StoreState) (sess : SessionState) (cardID : Int) (rating : Rating)
    (er : Option ExecutionResult) (now : Time) (card : Card)
    (hfind : st.cards.find? (fun c => c.id = cardID) = some card)
    (hrat : rating = Again ∨ rating = Hard ∨ rating = Good ∨ rating = Easy) :
    ((SubmitReview sched noFaults st sess cardID rating er now).error = none ∧
     (SubmitReview sched noFaults st sess cardID rating er now).store.reviews =
       st.reviews ++
         [{ createReviewRecord cardID rating er card.ToFSRSCard
              (sched card.ToFSRSCard rating now) now with
            id := st.nextReviewID, reviewedAt := now }] ∧
     (SubmitReview sched noFaults st sess cardID rating er now).store.GetCard
         noFaults cardID =
       .ok (updateCardRow card
         (card.UpdateFromFSRSCard (sched card.ToFSRSCard rating now) now) now)) ∧
    ((SubmitReview sched reviewInsertFault st sess cardID rating er now).error =
       some .createReviewFailed ∧
     (SubmitReview sched reviewInsertFault st sess cardID rating er now).store.reviews =
       st.reviews ∧
     (SubmitReview sched reviewInsertFault st sess cardID rating er now).store.GetCard
         noFaults cardID =
       .ok (updateCardRow card
         (card.UpdateFromFSRSCard (sched card.ToFSRSCard rating now) now) now)) := by
  rw [SubmitReview_noFaults_eq sched st sess cardID rating er now card hfind hrat,
      SubmitReview_reviewFault_eq sched st sess cardID rating er now card hfind hrat]
  refine ⟨⟨rfl, rfl, ?_⟩, rfl, rfl, ?_⟩ <;>
  · simp only [StoreState.GetCard, noFaults, Bool.false_eq_true, if_false]
    rw [find_update_row st.cards cardID card
      (fun c => updateCardRow c
        (card.UpdateFromFSRSCard (sched card.ToFSRSCard rating now) now) now)
      (fun c => rfl) hfind]

/-- Witness for C1's amended theorem at a concrete input: submitting the
new card on the fault-free backend returns no error. -/
theorem submitReview_commit_not_atomic_witness :
    (SubmitReview demoSched noFaults demoStoreNew demoSession1 1 Good none 1000).error =
      none :=
  (submitReview_commit_not_atomic demoSched demoStoreNew demoSession1 1 Good none 1000
    demoNewCard rfl (Or.inr (Or.inr (Or.inl rfl)))).1.1

/-- C1 counterexample: with the review insert failing, `SubmitReview`
reports the failure, yet the store now holds the FSRS-updated card
(reps bumped 0 → 1) while the reviews table is still empty — the two
effects did not commit atomically. -/
theorem submitReview_partial_commit_counterexample :
    (SubmitReview demoSched reviewInsertFault demoStoreNew demoSession1
        1 Good none 1000).error = some .createReviewFailed ∧
    (SubmitReview demoSched reviewInsertFault demoStoreNew demoSession1
        1 Good none 1000).store.reviews = [] ∧
    (SubmitReview demoSched reviewInsertFault demoStoreNew demoSession1
        1 Good none 1000).store.GetCard noFaults 1 =
      .ok { demoNewCard with
            fsrsDue := 1100
            fsrsReps := 1
            fsrsState := 1
            fsrsLastReview := some 1000
            updatedAt := 1000 } ∧
    demoNewCard.fsrsReps = 0 :=
  ⟨rfl, rfl, rfl, rfl⟩

/-- An active session on the mixed store, currently on card 1 with card 2
still queued behind it. -/
def demoSession2 : SessionState :=
  { id := "s5", startedAt := 900, deckID := none, options := demoDefaultOpts,
    cardsReviewed := 0, cardsRemaining := 2, currentCardID := some 1, cardQueue := [1, 2] }

/-- C2 (amended): `SubmitReview` never compares the submitted card-id with
the session's current card. With any stored card d different from the
queue head c it succeeds: card d's FSRS state is rewritten, a review row
for d is appended, cards-reviewed is incremented, cards-remaining is
decremented and the current-card pointer is cleared, while the queue
(and its head c) stays as it was. -/
theorem submitReview_ignores_current_card
    (sched : AnCLI.fsrs.Card → Rating → Time → AnCLI.fsrs.Card)
    (st : StoreState) (sess : SessionState) (c d : Int) (rating : Rating)
    (er : Option ExecutionResult) (now : Time) (card : Card)
    (hhead : sess.cardQueue.head? = some c)
    (hne : d ≠ c)
    (hfind : st.cards.find? (fun x => x.id = d) = some card)
    (hrat : rating = Again ∨ rating = Hard ∨ rating = Good ∨ rating = Easy) :
    (SubmitReview sched noFaults st sess d rating er now).error = none ∧
    (SubmitReview sched noFaults st sess d rating er now).session.cardQueue =
      sess.cardQueue ∧
    (SubmitReview sched noFaults st sess d rating er now).session.cardsReviewed =
      sess.cardsReviewed + 1 ∧
    (SubmitReview sched noFaults st sess d rating er now).session.cardsRemaining =
      sess.cardsRemaining - 1 ∧
    (SubmitReview sched noFaults st sess d rating er now).session.currentCardID =
      none ∧
    (SubmitReview sched noFaults st sess d rating er now).store.reviews =
      st.reviews ++
        [{ createReviewRecord d rating er card.ToFSRSCard
             (sched card.ToFSRSCard rating now) now with
           id := st.nextReviewID, reviewedAt := now }] := by
  rw [SubmitReview_noFaults_eq sched st sess d rating er now card hfind hrat]
  refine ⟨rfl, ?_, rfl, rfl, rfl, rfl⟩
  rcases hq : sess.cardQueue with _ | ⟨a, rest⟩
  · simp
  · rw [hq] at hhead
    simp only [List.head?_cons, Option.some.injEq] at hhead
    subst hhead
    simp only []
    rw [if_neg (fun h => hne h.symm)]

/-- Witness for C2's amended theorem at a concrete input: submitting card
2 while card 1 is current succeeds. -/
theorem submitReview_ignores_current_card_witness :
    (SubmitReview demoSched noFaults demoStoreMix demoSession2 2 Good none 1000).error =
      none :=
  (submitReview_ignores_current_card demoSched demoStoreMix demoSession2 1 2 Good none
    1000 demoReviewCard rfl (by decide) rfl (Or.inr (Or.inr (Or.inl rfl)))).1

/-- C2 counterexample: the session is on card 1, `SubmitReview` is called
for card 2 — it does not fail, it records a review for card 2, bumps the
counters and leaves the queue still headed by card 1. -/
theorem submitReview_mismatch_counterexample :
    (SubmitReview demoSched noFaults demoStoreMix demoSession2
        2 Good none 1000).error = none ∧
    (SubmitReview demoSched noFaults demoStoreMix demoSession2
        2 Good none 1000).store.reviews.map Review.cardID = [2] ∧
    (SubmitReview demoSched noFaults demoStoreMix demoSession2
        2 Good none 1000).session.cardQueue = [1, 2] ∧
    (SubmitReview demoSched noFaults demoStoreMix demoSession2
        2 Good none 1000).session.cardsReviewed = 1 ∧
    demoSession2.currentCardID = some 1 :=
  ⟨rfl, rfl, rfl, rfl, rfl⟩

/-- An active session whose single queued (and current) card is the
review card. -/
def demoSessionR : SessionState :=
  { id := "s6", startedAt := 900, deckID := none, options := demoDefaultOpts,
    cardsReviewed := 0, cardsRemaining := 1, currentCardID := some 2, cardQueue := [2] }

/-- C6: after one successful `SubmitReview` of a card with reps = 1 (a
review card), `EndSession` reports cards-reviewed = 1 but new-cards = 0
and review-cards = 0 (with every per-rating counter 0 too) — the
statistics fields beyond the cards-reviewed counter are left at their
zero values instead of being computed. -/
theorem endSession_zero_stats_bug :
    demoReviewCard.fsrsReps = 1 ∧
    (SubmitReview demoSched noFaults demoStoreMix demoSessionR
        2 Good none 1000).error = none ∧
    EndSession (SubmitReview demoSched noFaults demoStoreMix demoSessionR
        2 Good none 1000).session 2000 =
      { sessionID := "s6", duration := 1100, cardsReviewed := 1, newCards := 0,
        reviewCards := 0, againCount := 0, hardCount := 0, goodCount := 0,
        easyCount := 0, averageRating := 0 } :=
  ⟨rfl, rfl, rfl⟩

/-- C10: the INSERT of `CreateReview` omits the `reviewed_at` column, so
the stored row carries the database's current-timestamp default, and on
success the returned review's ReviewedAt is overwritten with the Go
clock — the caller-supplied reviewed-at value is never persisted. -/
theorem createReview_overwrites_reviewedAt :
    createReviewColumns.contains "reviewed_at" = false ∧
    ∀ (st : StoreState) (r : Review) (dbNow goNow : Time),
      st.CreateReview noFaults r dbNow goNow =
        .ok ({ st with
                reviews := st.reviews ++
                  [{ r with id := st.nextReviewID, reviewedAt := dbNow }]
                nextReviewID := st.nextReviewID + 1 },
             { r with id := st.nextReviewID, reviewedAt := goNow }) :=
  ⟨rfl, fun _ _ _ _ => rfl⟩

end AnCLI
